import Mathlib

/-!
Shallow embedding of the LDAP directory service
(`src/services/ldap/index.js`) of the schulcloud-server repository.

JavaScript values that may be `undefined` are modelled with `Option`;
JavaScript string truthiness (`undefined` and `""` are falsy) is
`jsTruthyStr`.  A promise executor is modelled as the ordered list of the
settlement calls it performs, the settled outcome being the first one
(later `resolve`/`reject` calls are no-ops).  A synchronous exception is
the `Outcome.thrown` case, a rejection is `Outcome.err`, and a promise
that never settles is `Outcome.pending`.  The LDAP server and the
query-strategy provider are external collaborators and enter as
parameters.
-/

namespace LdapSpec

/-- JavaScript errors and rejection values as they appear in the service:
plain string rejections, the feathers `NotAuthenticated` error, and
runtime `TypeError`s. -/
inductive JsError where
  | str (s : String)
  | notAuthenticated (msg : String)
  | typeError (msg : String)
  deriving DecidableEq, Repr

/-- Outcome of calling one of the service methods: a fulfilled promise,
a rejected promise, a synchronously thrown exception, or a promise that
never settles. -/
inductive Outcome (α : Type u) where
  | ok (a : α)
  | err (e : JsError)
  | thrown (e : JsError)
  | pending
  deriving DecidableEq, Repr

/-- One settlement call made by a promise executor. -/
inductive Settle (α : Type u) where
  | resolve (a : α)
  | reject (e : JsError)
  deriving DecidableEq, Repr

/-- The outcome of a promise whose executor performs the given settlement
calls in order: only the first call settles the promise; with no call the
promise stays pending forever. -/
def firstSettle : List (Settle α) → Outcome α
  | [] => Outcome.pending
  | Settle.resolve a :: _ => Outcome.ok a
  | Settle.reject e :: _ => Outcome.err e

/-- JavaScript truthiness of an optional string: `undefined` and the
empty string are falsy. -/
def jsTruthyStr : Option String → Bool
  | none => false
  | some s => !s.isEmpty

/-- The property key JavaScript uses for `clients[config._id]`: an
`undefined` identifier is coerced to the string key `"undefined"`. -/
def jsKey : Option String → String
  | none => "undefined"
  | some s => s

/-- `LdapConfig` record: identifier, server URL, root path and
service-account credentials (fields that the code tests for truthiness
are optional). -/
structure LdapConfig where
  _id : Option String
  url : Option String
  rootPath : String
  searchUser : String
  searchUserPassword : String
  deriving DecidableEq, Repr

/-- An LDAP client handle as the service observes it: the credentials it
was bound with and its is-connected flag. -/
structure LDAPClient where
  boundUser : String
  boundPassword : String
  connected : Bool
  deriving DecidableEq, Repr

/-- A directory entry: an opaque attribute mapping. -/
abbrev DirectoryEntry := List (String × String)

/-- Search options as constructed by the service. -/
structure SearchOptions where
  filter : Option String
  scope : String
  attributes : List String
  deriving DecidableEq, Repr

/-- An event emitted by the server on a search response stream. -/
inductive SearchEvent where
  | error (e : JsError)
  | entry (obj : DirectoryEntry)
  | endEvent (status : Nat)
  deriving DecidableEq, Repr

/-- The server reaction to a `client.search` call: either the callback
receives an error, or a finite stream of response events. -/
inductive SearchResult where
  | callbackErr (e : JsError)
  | events (evs : List SearchEvent)
  deriving DecidableEq, Repr

/-- The external LDAP server: which bind credentials it accepts, and
what each search on a given client handle returns. -/
structure LdapServer where
  acceptBind : String → String → Bool
  search : LDAPClient → String → SearchOptions → SearchResult

/-- The mutable state of the `LdapService` instance: the `clients`
registry, a JavaScript object keyed by configuration identifier. -/
structure LdapService where
  clients : List (String × LDAPClient)
  deriving DecidableEq, Repr

/-- JavaScript object property lookup on the `clients` registry. -/
def assocGet (l : List (String × LDAPClient)) (k : String) : Option LDAPClient :=
  (l.find? (fun p => p.1 = k)).map Prod.snd

/-- JavaScript object property assignment on the `clients` registry:
overwrites the value at an existing key, otherwise appends the key. -/
def assocSet (l : List (String × LDAPClient)) (k : String) (v : LDAPClient) :
    List (String × LDAPClient) :=
  if l.any (fun p => p.1 = k) then
    l.map (fun p => if p.1 = k then (k, v) else p)
  else
    l ++ [(k, v)]

/-- `_addClient(config, client)`: `this.clients[config._id] = client`. -/
def _addClient (S : LdapService) (config : LdapConfig) (client : LDAPClient) :
    LdapService :=
  { S with clients := assocSet S.clients (jsKey config._id) client }

/-- The default bind username derived in `_connect`:
`uid=<searchUser>,cn=users,<rootPath>`. -/
def deriveUser (c : LdapConfig) : String :=
  "uid=" ++ c.searchUser ++ ",cn=users," ++ c.rootPath

/-- The promise executor body of `_connect`, after the credential
defaulting: rejects with the invalid-URL string when the config is
missing or its URL is falsy (the settlement wins over everything the
executor does afterwards), otherwise creates a client for the URL and
binds with the given credentials. -/
def connectExecutor (server : LdapServer) (config : Option LdapConfig)
    (username password : String) : Outcome LDAPClient :=
  match config with
  | none => Outcome.err (JsError.str "Invalid URL in config object.")
  | some c =>
    if jsTruthyStr c.url then
      if server.acceptBind username password then
        Outcome.ok { boundUser := username, boundPassword := password, connected := true }
      else
        Outcome.err (JsError.notAuthenticated "Wrong credentials")
    else
      Outcome.err (JsError.str "Invalid URL in config object.")

/-- `_connect(config, username, password)`.  The defaulting lines
`username = username || ...` and `password = password || ...` read
`config.searchUser` / `config.searchUserPassword` whenever the supplied
value is falsy, which throws a `TypeError` when `config` is missing;
otherwise the promise executor runs. -/
def _connect (server : LdapServer) (config : Option LdapConfig)
    (username password : Option String) : Outcome LDAPClient :=
  if jsTruthyStr username then
    if jsTruthyStr password then
      connectExecutor server config (username.getD "") (password.getD "")
    else
      match config with
      | none => Outcome.thrown (JsError.typeError "Cannot read searchUserPassword of undefined")
      | some c => connectExecutor server config (username.getD "") c.searchUserPassword
  else
    match config with
    | none => Outcome.thrown (JsError.typeError "Cannot read searchUser of undefined")
    | some c =>
      let u := deriveUser c
      if jsTruthyStr password then
        connectExecutor server config u (password.getD "")
      else
        connectExecutor server config u c.searchUserPassword

/-- `_getClient(config)`: reading `config._id` throws when the config is
missing; a cached client reporting connected is returned as-is;
otherwise `_connect` establishes a new handle which is cached via
`_addClient` and returned. -/
def _getClient (server : LdapServer) (S : LdapService) (config : Option LdapConfig) :
    Outcome LDAPClient × LdapService :=
  match config with
  | none => (Outcome.thrown (JsError.typeError "Cannot read _id of undefined"), S)
  | some c =>
    match assocGet S.clients (jsKey c._id) with
    | some client =>
      if client.connected then
        (Outcome.ok client, S)
      else
        match _connect server (some c) none none with
        | Outcome.ok newClient => (Outcome.ok newClient, _addClient S c newClient)
        | o => (o, S)
    | none =>
      match _connect server (some c) none none with
      | Outcome.ok newClient => (Outcome.ok newClient, _addClient S c newClient)
      | o => (o, S)

/-- The settlement calls performed by the `searchCollection` executor
while the response events fire, carrying the `objects` accumulator:
an `error` event rejects; a `searchEntry` event pushes `entry.object`;
the `end` event resolves with the accumulated objects when
`result.status === 0` and then (with no `else` in the code)
unconditionally rejects with the result-code string. -/
def searchSettlements : List SearchEvent → List DirectoryEntry →
    List (Settle (List DirectoryEntry))
  | [], _ => []
  | SearchEvent.error e :: rest, objs =>
    Settle.reject e :: searchSettlements rest objs
  | SearchEvent.entry o :: rest, objs =>
    searchSettlements rest (objs ++ [o])
  | SearchEvent.endEvent status :: rest, objs =>
    (if status = 0 then [Settle.resolve objs] else []) ++
      Settle.reject (JsError.str "LDAP result code != 0") :: searchSettlements rest objs

/-- The promise built around one `client.search` call. -/
def searchPromise (r : SearchResult) : Outcome (List DirectoryEntry) :=
  match r with
  | SearchResult.callbackErr e => Outcome.err e
  | SearchResult.events evs => firstSettle (searchSettlements evs [])

/-- `searchCollection(config, searchString, options)`: obtains a client
through `_getClient` and runs the buffered search on it. -/
def searchCollection (server : LdapServer) (S : LdapService)
    (config : Option LdapConfig) (searchString : String) (options : SearchOptions) :
    Outcome (List DirectoryEntry) × LdapService :=
  match _getClient server S config with
  | (Outcome.ok client, S') =>
    (searchPromise (server.search client searchString options), S')
  | (Outcome.err e, S') => (Outcome.err e, S')
  | (Outcome.thrown e, S') => (Outcome.thrown e, S')
  | (Outcome.pending, S') => (Outcome.pending, S')

/-- `searchObject(config, searchString, options)`: first element of the
`searchCollection` result, or the object-not-found rejection when the
result set is empty. -/
def searchObject (server : LdapServer) (S : LdapService)
    (config : Option LdapConfig) (searchString : String) (options : SearchOptions) :
    Outcome DirectoryEntry × LdapService :=
  match searchCollection server S config searchString options with
  | (Outcome.ok objects, S') =>
    match objects with
    | o :: _ => (Outcome.ok o, S')
    | [] => (Outcome.err (JsError.str "Object not found"), S')
  | (Outcome.err e, S') => (Outcome.err e, S')
  | (Outcome.thrown e, S') => (Outcome.thrown e, S')
  | (Outcome.pending, S') => (Outcome.pending, S')

/-- The login system record passed to `authenticate`. -/
structure LoginSystem where
  ldapConfig : Option LdapConfig

/-- The search options `authenticate` builds for the self-lookup. -/
def selfLookupOptions : SearchOptions :=
  { filter := none, scope := "sub", attributes := [] }

/-- `authenticate(system, qualifiedUsername, password)`: a dedicated
`_connect` with the caller-supplied credentials, then a `searchObject`
with the qualified username as the search string. -/
def authenticate (server : LdapServer) (S : LdapService) (system : LoginSystem)
    (qualifiedUsername password : String) : Outcome DirectoryEntry × LdapService :=
  let config := system.ldapConfig
  match _connect server config (some qualifiedUsername) (some password) with
  | Outcome.ok _ =>
    searchObject server S config qualifiedUsername selfLookupOptions
  | Outcome.err e => (Outcome.err e, S)
  | Outcome.thrown e => (Outcome.thrown e, S)
  | Outcome.pending => (Outcome.pending, S)

/-- `_disconnect(config)`: the executor first rejects with the
invalid-config string when `config` or `config._id` is falsy; it then
calls `this._getClient(config)` (throwing when the config is missing,
otherwise performing all cache side effects of `_getClient`) and
invokes `.unbind` on the returned value — which is the promise object,
not a client, so a `TypeError` is thrown inside the executor and rejects
the promise when it is still unsettled. -/
def _disconnect (server : LdapServer) (S : LdapService) (config : Option LdapConfig) :
    Outcome Unit × LdapService :=
  match config with
  | none =>
    (firstSettle [Settle.reject (JsError.str "Invalid config object"),
      Settle.reject (JsError.typeError "Cannot read _id of undefined")], S)
  | some c =>
    let guard : List (Settle Unit) :=
      if jsTruthyStr c._id then [] else [Settle.reject (JsError.str "Invalid config object")]
    let (_, S') := _getClient server S (some c)
    (firstSettle (guard ++
      [Settle.reject (JsError.typeError "unbind is not a function")]), S')

/-- A team record as used by `_teamToGroup`. -/
structure Team where
  _id : String
  name : String
  deriving DecidableEq, Repr

/-- An LDAP group object as built by `_teamToGroup`. -/
structure LDAPGroup where
  name : String
  description : String
  deriving DecidableEq, Repr

/-- The capability set of a directory-server query strategy, as far as
group membership mutation is concerned. -/
structure LDAPStrategy (User : Type u) (Res : Type v) where
  addUserToGroup : User → LDAPGroup → Res
  removeUserFromGroup : User → LDAPGroup → Res

/-- `_teamToGroup(team)`: synthetic group name and description. -/
def _teamToGroup (team : Team) : LDAPGroup :=
  { name := "schulcloud-" ++ team._id, description := team.name }

/-- `addUserToTeam(config, user, team)`: derives the group and delegates
to the strategy selected for the config. -/
def addUserToTeam (getLDAPStrategy : Option LdapConfig → LDAPStrategy User Res)
    (config : Option LdapConfig) (user : User) (team : Team) : Res :=
  (getLDAPStrategy config).addUserToGroup user (_teamToGroup team)

/-- `removeUserFromTeam(config, user, team)`: derives the group and
delegates to the strategy selected for the config. -/
def removeUserFromTeam (getLDAPStrategy : Option LdapConfig → LDAPStrategy User Res)
    (config : Option LdapConfig) (user : User) (team : Team) : Res :=
  (getLDAPStrategy config).removeUserFromGroup user (_teamToGroup team)


/-! ### Helper lemmas about the clients registry and promise machinery -/

theorem assocGet_nil (k : String) : assocGet [] k = none := rfl

theorem assocGet_cons (p : String × LDAPClient) (rest : List (String × LDAPClient))
    (k : String) :
    assocGet (p :: rest) k = if p.1 = k then some p.2 else assocGet rest k := by
  by_cases h : p.1 = k
  · rw [assocGet, List.find?_cons_of_pos _ (by simpa using h)]
    simp [h]
  · rw [assocGet, List.find?_cons_of_neg _ (by simpa using h)]
    simp [h, assocGet]

theorem assocGet_map_update (l : List (String × LDAPClient)) (k : String) (v : LDAPClient) :
    assocGet (l.map (fun p => if p.1 = k then (k, v) else p)) k
      = if l.any (fun p => (p.1 = k : Bool)) then some v else assocGet l k := by
  induction l with
  | nil => rfl
  | cons p rest ih =>
    by_cases h : p.1 = k
    · rw [List.map_cons, if_pos h, assocGet_cons]
      simp [h]
    · rw [List.map_cons, if_neg h, assocGet_cons, if_neg h, ih, List.any_cons,
        decide_eq_false h, Bool.false_or, assocGet_cons, if_neg h]

theorem assocGet_append_single (l : List (String × LDAPClient)) (k : String) (v : LDAPClient)
    (h : l.any (fun p => (p.1 = k : Bool)) = false) :
    assocGet (l ++ [(k, v)]) k = some v := by
  induction l with
  | nil => simp [assocGet_cons, assocGet_nil]
  | cons p rest ih =>
    rw [List.any_cons, Bool.or_eq_false_iff] at h
    rw [List.cons_append, assocGet_cons, if_neg (by simpa using h.1)]
    exact ih h.2

theorem assocGet_assocSet_self (l : List (String × LDAPClient)) (k : String) (v : LDAPClient) :
    assocGet (assocSet l k v) k = some v := by
  rw [assocSet]
  by_cases h : l.any (fun p => (p.1 = k : Bool))
  · rw [if_pos h, assocGet_map_update, if_pos h]
  · rw [if_neg h]
    exact assocGet_append_single l k v (eq_false_of_ne_true h)

theorem keys_assocSet (l : List (String × LDAPClient)) (k : String) (v : LDAPClient)
    (h : (l.map Prod.fst).Nodup) : ((assocSet l k v).map Prod.fst).Nodup := by
  rw [assocSet]
  by_cases hc : l.any (fun p => (p.1 = k : Bool))
  · rw [if_pos hc]
    have hmap : (l.map (fun p => if p.1 = k then (k, v) else p)).map Prod.fst
        = l.map Prod.fst := by
      rw [List.map_map]
      apply List.map_congr_left
      intro p _
      by_cases hp : p.1 = k
      · simp [hp]
      · simp [hp]
    rw [hmap]; exact h
  · rw [if_neg hc]
    have hk : k ∉ l.map Prod.fst := by
      intro hmem
      rcases List.mem_map.mp hmem with ⟨p, hp, hpk⟩
      have hany : l.any (fun p => (p.1 = k : Bool)) = true :=
        List.any_eq_true.mpr ⟨p, hp, by simp [hpk]⟩
      exact hc hany
    rw [List.map_append]
    simp only [List.map_cons, List.map_nil]
    rw [List.nodup_append]
    refine ⟨h, List.nodup_singleton k, ?_⟩
    intro a ha hak
    rw [List.mem_singleton] at hak
    exact hk (hak ▸ ha)

theorem jsTruthyStr_of_ne (s : String) (h : s ≠ "") : jsTruthyStr (some s) = true := by
  rw [jsTruthyStr, Bool.not_eq_true']
  exact eq_false_of_ne_true (fun he => h ((String.isEmpty_iff s).mp he))

/-- The settlement list produced when the server emits a finite sequence
of entry events followed by a single end event. -/
theorem searchSettlements_entries_end (entries : List DirectoryEntry)
    (acc : List DirectoryEntry) (status : Nat) :
    searchSettlements (entries.map SearchEvent.entry ++ [SearchEvent.endEvent status]) acc
      = (if status = 0 then [Settle.resolve (acc ++ entries)] else []) ++
        [Settle.reject (JsError.str "LDAP result code != 0")] := by
  induction entries generalizing acc with
  | nil => simp [searchSettlements]
  | cons o rest ih =>
    rw [List.map_cons, List.cons_append]
    show searchSettlements (rest.map SearchEvent.entry ++ [SearchEvent.endEvent status])
        (acc ++ [o]) = _
    rw [ih (acc ++ [o]), List.append_assoc, List.singleton_append]

/-! ### Concrete fixtures used by witnesses and counterexamples -/

/-- The example configuration from the specification. -/
def cfgExample : LdapConfig :=
  { _id := some "s1", url := some "ldap://host", rootPath := "dc=school",
    searchUser := "admin", searchUserPassword := "p" }

/-- A service instance with an empty clients registry. -/
def emptyService : LdapService := { clients := [] }

/-- The service-account handle for `cfgExample`. -/
def serviceClientExample : LDAPClient :=
  { boundUser := "uid=admin,cn=users,dc=school", boundPassword := "p", connected := true }

/-- A service instance with the service-account handle cached under
the identifier of `cfgExample`. -/
def cachedService : LdapService := { clients := [("s1", serviceClientExample)] }

def entryA : DirectoryEntry := [("uid", "a")]

def entryB : DirectoryEntry := [("uid", "b")]

def entryC : DirectoryEntry := [("uid", "c")]

/-- A server that rejects every bind. -/
def serverRejectAll : LdapServer :=
  { acceptBind := fun _ _ => false, search := fun _ _ _ => SearchResult.events [] }

/-- A server that accepts every bind and answers every search with three
entries followed by a successful end event. -/
def serverThreeEntries : LdapServer :=
  { acceptBind := fun _ _ => true,
    search := fun _ _ _ => SearchResult.events
      [SearchEvent.entry entryA, SearchEvent.entry entryB, SearchEvent.entry entryC,
       SearchEvent.endEvent 0] }

/-- A server that accepts every bind and answers every search with three
entries followed by an end event with result status 1. -/
def serverStatusOne : LdapServer :=
  { acceptBind := fun _ _ => true,
    search := fun _ _ _ => SearchResult.events
      [SearchEvent.entry entryA, SearchEvent.entry entryB, SearchEvent.entry entryC,
       SearchEvent.endEvent 1] }

/-- A server that accepts every bind and answers every search with an
immediately successful end event and no entries. -/
def serverEmptyResult : LdapServer :=
  { acceptBind := fun _ _ => true,
    search := fun _ _ _ => SearchResult.events [SearchEvent.endEvent 0] }

/-! ### Behaviour of the connection cache -/

/-- Whether the registry holds a handle reporting connected under a key. -/
def hasConnected (S : LdapService) (k : String) : Bool :=
  match assocGet S.clients k with
  | some cl => cl.connected
  | none => false

theorem getClient_cached (server : LdapServer) (S : LdapService) (c : LdapConfig)
    (cl : LDAPClient) (hcached : assocGet S.clients (jsKey c._id) = some cl)
    (hconn : cl.connected = true) :
    _getClient server S (some c) = (Outcome.ok cl, S) := by
  simp only [_getClient, hcached, hconn, if_true]

theorem connect_no_credentials (server : LdapServer) (c : LdapConfig) :
    _connect server (some c) none none
      = connectExecutor server (some c) (deriveUser c) c.searchUserPassword := rfl

theorem getClient_uncached (server : LdapServer) (S : LdapService) (c : LdapConfig)
    (hnc : hasConnected S (jsKey c._id) = false) :
    _getClient server S (some c)
      = match connectExecutor server (some c) (deriveUser c) c.searchUserPassword with
        | Outcome.ok newClient => (Outcome.ok newClient, _addClient S c newClient)
        | o => (o, S) := by
  rw [hasConnected] at hnc
  rcases hga : assocGet S.clients (jsKey c._id) with _ | cl
  · simp only [_getClient, hga, connect_no_credentials]
  · rw [hga] at hnc
    simp only at hnc
    simp only [_getClient, hga, hnc, if_false, connect_no_credentials]
    rw [if_neg]
    simp [hnc]

/-! ### C1 -/

/-- C1: for every search in which the server emits a finite sequence of
`searchEntry` events and then signals `end`, `searchMany`
(`searchCollection`) resolves with exactly the emitted entries in
emission order when the result status is 0, and rejects with the
directory-error value (the result-code rejection) when the status is
non-zero, returning no partial result and discarding the entries already
received. -/
theorem searchMany_end_status (server : LdapServer) (S : LdapService) (c : LdapConfig)
    (cl : LDAPClient) (s : String) (opts : SearchOptions)
    (entries : List DirectoryEntry) (status : Nat)
    (hcached : assocGet S.clients (jsKey c._id) = some cl)
    (hconn : cl.connected = true)
    (hsearch : server.search cl s opts
      = SearchResult.events (entries.map SearchEvent.entry ++ [SearchEvent.endEvent status])) :
    searchCollection server S (some c) s opts
      = ((if status = 0 then Outcome.ok entries
          else Outcome.err (JsError.str "LDAP result code != 0")), S) := by
  rw [searchCollection, getClient_cached server S c cl hcached hconn]
  show (searchPromise (server.search cl s opts), S) = _
  rw [hsearch]
  simp only [searchPromise]
  rw [searchSettlements_entries_end entries [] status]
  by_cases h0 : status = 0
  · simp [h0, firstSettle]
  · simp [h0, firstSettle]

/-- Witness for C1: on a cached connection, a server emitting three
entries and result status 0 yields exactly those three entries in order,
and the same three entries with result status 1 yield the rejection. -/
theorem searchMany_end_status_witness :
    searchCollection serverThreeEntries cachedService (some cfgExample) "dc=school"
      selfLookupOptions = (Outcome.ok [entryA, entryB, entryC], cachedService)
    ∧ searchCollection serverStatusOne cachedService (some cfgExample) "dc=school"
      selfLookupOptions
      = (Outcome.err (JsError.str "LDAP result code != 0"), cachedService) := by
  constructor
  · have h := searchMany_end_status serverThreeEntries cachedService cfgExample
      serviceClientExample "dc=school" selfLookupOptions [entryA, entryB, entryC] 0
      (by rfl) (by rfl) (by rfl)
    simpa using h
  · have h := searchMany_end_status serverStatusOne cachedService cfgExample
      serviceClientExample "dc=school" selfLookupOptions [entryA, entryB, entryC] 1
      (by rfl) (by rfl) (by rfl)
    simpa using h

/-! ### C6 -/

/-- C6: `searchOne` (`searchObject`) returns the first element of the
sequence produced by `searchMany` (`searchCollection`) when that
sequence is non-empty, and rejects with the object-not-found value when
the result set is empty. -/
theorem searchOne_first_or_not_found (server : LdapServer) (S : LdapService)
    (config : Option LdapConfig) (s : String) (opts : SearchOptions) :
    (∀ (e : DirectoryEntry) (es : List DirectoryEntry) (S' : LdapService),
        searchCollection server S config s opts = (Outcome.ok (e :: es), S') →
        searchObject server S config s opts = (Outcome.ok e, S'))
    ∧ (∀ S' : LdapService,
        searchCollection server S config s opts = (Outcome.ok [], S') →
        searchObject server S config s opts
          = (Outcome.err (JsError.str "Object not found"), S')) := by
  constructor
  · intro e es S' h
    rw [searchObject, h]
  · intro S' h
    rw [searchObject, h]

/-- Witness for C6: with three cached entries the first one is returned;
with an empty result set the object-not-found rejection is produced. -/
theorem searchOne_first_or_not_found_witness :
    searchObject serverThreeEntries cachedService (some cfgExample) "dc=school"
      selfLookupOptions = (Outcome.ok entryA, cachedService)
    ∧ searchObject serverEmptyResult cachedService (some cfgExample) "dc=school"
      selfLookupOptions
      = (Outcome.err (JsError.str "Object not found"), cachedService) := by
  constructor
  · exact (searchOne_first_or_not_found serverThreeEntries cachedService
      (some cfgExample) "dc=school" selfLookupOptions).1 entryA [entryB, entryC]
      cachedService (by rfl)
  · exact (searchOne_first_or_not_found serverEmptyResult cachedService
      (some cfgExample) "dc=school" selfLookupOptions).2 cachedService (by rfl)


theorem connectExecutor_default (server : LdapServer) (c : LdapConfig)
    (hurl : jsTruthyStr c.url = true)
    (hacc : server.acceptBind ("uid=" ++ c.searchUser ++ ",cn=users," ++ c.rootPath)
      c.searchUserPassword = true) :
    connectExecutor server (some c) (deriveUser c) c.searchUserPassword
      = Outcome.ok ⟨"uid=" ++ c.searchUser ++ ",cn=users," ++ c.rootPath,
          c.searchUserPassword, true⟩ := by
  rw [connectExecutor]
  simp only [hurl, if_true]
  rw [show deriveUser c = "uid=" ++ c.searchUser ++ ",cn=users," ++ c.rootPath from rfl]
  simp only [hacc, if_true]

theorem getClient_establishes_default (server : LdapServer) (S : LdapService)
    (c : LdapConfig) (hurl : jsTruthyStr c.url = true)
    (hnc : hasConnected S (jsKey c._id) = false)
    (hacc : server.acceptBind ("uid=" ++ c.searchUser ++ ",cn=users," ++ c.rootPath)
      c.searchUserPassword = true) :
    _getClient server S (some c)
      = (Outcome.ok ⟨"uid=" ++ c.searchUser ++ ",cn=users," ++ c.rootPath,
          c.searchUserPassword, true⟩,
         _addClient S c ⟨"uid=" ++ c.searchUser ++ ",cn=users," ++ c.rootPath,
          c.searchUserPassword, true⟩) := by
  rw [getClient_uncached server S c hnc, connectExecutor_default server c hurl hacc]

/-! ### C7 -/

/-- C7: with no explicit credentials, the connection bind uses the
derived default username `uid=<searchUser>,cn=users,<rootPath>` and the
configured password, and with no connected cached handle `getConnection`
establishes and caches exactly that handle. -/
theorem connect_derived_default_credentials (server : LdapServer) (S : LdapService)
    (c : LdapConfig) (hurl : jsTruthyStr c.url = true)
    (hnc : hasConnected S (jsKey c._id) = false)
    (hacc : server.acceptBind ("uid=" ++ c.searchUser ++ ",cn=users," ++ c.rootPath)
      c.searchUserPassword = true) :
    _connect server (some c) none none
      = Outcome.ok ⟨"uid=" ++ c.searchUser ++ ",cn=users," ++ c.rootPath,
          c.searchUserPassword, true⟩
    ∧ _getClient server S (some c)
      = (Outcome.ok ⟨"uid=" ++ c.searchUser ++ ",cn=users," ++ c.rootPath,
          c.searchUserPassword, true⟩,
         _addClient S c ⟨"uid=" ++ c.searchUser ++ ",cn=users," ++ c.rootPath,
          c.searchUserPassword, true⟩) :=
  ⟨by rw [connect_no_credentials, connectExecutor_default server c hurl hacc],
   getClient_establishes_default server S c hurl hnc hacc⟩

/-- Witness for C7: the example configuration from the specification
binds as `uid=admin,cn=users,dc=school` with password `p`, and
`getConnection` caches that handle under identifier `s1`. -/
theorem connect_derived_default_credentials_witness :
    _getClient serverThreeEntries emptyService (some cfgExample)
      = (Outcome.ok serviceClientExample, cachedService) := by
  have h := (connect_derived_default_credentials serverThreeEntries emptyService
    cfgExample (by rfl) (by rfl) (by rfl)).2
  exact h

/-! ### C9 -/

/-- C9: `addUserToTeam` and `removeUserFromTeam` pass the strategy a
group whose name is exactly `schulcloud-<teamId>` and whose description
is the team name, and the group name is independent of the team name
content. -/
theorem team_group_name (getLDAPStrategy : Option LdapConfig → LDAPStrategy User Res)
    (config : Option LdapConfig) (user : User) (team : Team) :
    addUserToTeam getLDAPStrategy config user team
      = (getLDAPStrategy config).addUserToGroup user
          { name := "schulcloud-" ++ team._id, description := team.name }
    ∧ removeUserFromTeam getLDAPStrategy config user team
      = (getLDAPStrategy config).removeUserFromGroup user
          { name := "schulcloud-" ++ team._id, description := team.name }
    ∧ (∀ otherName : String,
        (_teamToGroup { _id := team._id, name := otherName }).name
          = "schulcloud-" ++ team._id) :=
  ⟨rfl, rfl, fun _ => rfl⟩

/-! ### C3 -/

/-- C3: starting from a configuration with no cached handle, two
sequential `getConnection` calls yield the same cached handle on the
second call: the first call establishes and caches a handle, and the
second call returns that cached handle with no state change and without
any bind — its result is the same for every server, in particular for
one that rejects all binds. -/
theorem getConnection_second_call_cached (server : LdapServer) (S : LdapService)
    (c : LdapConfig)
    (hnone : assocGet S.clients (jsKey c._id) = none)
    (hurl : jsTruthyStr c.url = true)
    (hacc : server.acceptBind ("uid=" ++ c.searchUser ++ ",cn=users," ++ c.rootPath)
      c.searchUserPassword = true) :
    ∃ client : LDAPClient,
      _getClient server S (some c) = (Outcome.ok client, _addClient S c client)
      ∧ client.connected = true
      ∧ ∀ server' : LdapServer,
          _getClient server' (_addClient S c client) (some c)
            = (Outcome.ok client, _addClient S c client) := by
  have hnc : hasConnected S (jsKey c._id) = false := by
    rw [hasConnected, hnone]
  refine ⟨⟨"uid=" ++ c.searchUser ++ ",cn=users," ++ c.rootPath,
    c.searchUserPassword, true⟩, ?_, rfl, ?_⟩
  · exact getClient_establishes_default server S c hurl hnc hacc
  · intro server'
    apply getClient_cached
    · rw [_addClient]
      exact assocGet_assocSet_self S.clients (jsKey c._id) _
    · rfl

/-- Witness for C3: on the example configuration with an empty registry,
the first call caches the service handle and a second call — against a
server that rejects every bind — returns the same handle unchanged. -/
theorem getConnection_second_call_cached_witness :
    _getClient serverRejectAll cachedService (some cfgExample)
      = (Outcome.ok serviceClientExample, cachedService) := by
  rcases getConnection_second_call_cached serverThreeEntries emptyService cfgExample
    (by rfl) (by rfl) (by rfl) with ⟨client, h1, _, h2⟩
  have hcl : client = serviceClientExample := by
    have h := congrArg Prod.fst h1
    have h' : Outcome.ok serviceClientExample = Outcome.ok client := h
    injection h' with h''
    exact h''.symm
  have h2r := h2 serverRejectAll
  rw [hcl] at h2r
  have hadd : _addClient emptyService cfgExample serviceClientExample = cachedService := rfl
  rw [hadd] at h2r
  exact h2r

/-! ### C4 -/

/-- A configuration whose URL is absent. -/
def cfgNoUrl : LdapConfig :=
  { _id := some "s2", url := none, rootPath := "dc=school",
    searchUser := "admin", searchUserPassword := "p" }

/-- Counterexample to C4 as stated: with a missing config,
`getConnection` (`_getClient`) throws a `TypeError` while reading
`config._id` — the reported failure is not the `ConfigurationError`
rejection (neither of the two invalid-config rejection strings). -/
theorem getConnection_missing_config_counterexample :
    (_getClient serverRejectAll emptyService none).1
      = Outcome.thrown (JsError.typeError "Cannot read _id of undefined")
    ∧ (_getClient serverRejectAll emptyService none).1
      ≠ Outcome.err (JsError.str "Invalid URL in config object.")
    ∧ (_getClient serverRejectAll emptyService none).1
      ≠ Outcome.err (JsError.str "Invalid config object") :=
  ⟨rfl, by decide, by decide⟩

/-- C4 amended: with no connected cached handle, `getConnection` fails
with the `ConfigurationError` rejection whenever the config is present
but has no URL — with no bind attempt part of the reported outcome, the
result being the same for every server — and fails with the
`AuthenticationError` rejection whenever the server rejects the
service-account bind; when the config is missing entirely it instead
throws a `TypeError`. -/
theorem getConnection_error_spec (server : LdapServer) (S : LdapService) (c : LdapConfig)
    (hnc : hasConnected S (jsKey c._id) = false) :
    (jsTruthyStr c.url = false →
      ∀ server' : LdapServer,
        _getClient server' S (some c)
          = (Outcome.err (JsError.str "Invalid URL in config object."), S))
    ∧ (jsTruthyStr c.url = true →
      server.acceptBind ("uid=" ++ c.searchUser ++ ",cn=users," ++ c.rootPath)
          c.searchUserPassword = false →
        _getClient server S (some c)
          = (Outcome.err (JsError.notAuthenticated "Wrong credentials"), S))
    ∧ _getClient server S none
      = (Outcome.thrown (JsError.typeError "Cannot read _id of undefined"), S) := by
  refine ⟨?_, ?_, rfl⟩
  · intro hurl server'
    rw [getClient_uncached server' S c hnc, connectExecutor]
    simp [hurl]
  · intro hurl hrej
    rw [getClient_uncached server S c hnc, connectExecutor]
    simp only [hurl, if_true]
    rw [show deriveUser c = "uid=" ++ c.searchUser ++ ",cn=users," ++ c.rootPath from rfl,
      hrej]
    simp

/-- Witness for the amended C4: the URL-less config rejects with the
invalid-URL string even against a server that rejects all binds, and the
example config against that server rejects with the wrong-credentials
error. -/
theorem getConnection_error_spec_witness :
    _getClient serverRejectAll emptyService (some cfgNoUrl)
      = (Outcome.err (JsError.str "Invalid URL in config object."), emptyService)
    ∧ _getClient serverRejectAll emptyService (some cfgExample)
      = (Outcome.err (JsError.notAuthenticated "Wrong credentials"), emptyService) := by
  constructor
  · exact (getConnection_error_spec serverRejectAll emptyService cfgNoUrl (by rfl)).1
      (by rfl) serverRejectAll
  · exact (getConnection_error_spec serverRejectAll emptyService cfgExample (by rfl)).2.1
      (by rfl) (by rfl)

/-! ### C5 -/

/-- C5: evaluating `_disconnect` at a config whose id is present and
which has a cached connected handle shows the code bug: `.unbind` is
invoked on the promise returned by `_getClient`, not on the client, so
the call rejects with a `TypeError` and the cached handle stays in the
registry untouched instead of being closed.  The missing-id half of the
claim does hold: a missing config rejects with the invalid-config
string. -/
theorem disconnect_bug_eval :
    _disconnect serverRejectAll cachedService (some cfgExample)
      = (Outcome.err (JsError.typeError "unbind is not a function"), cachedService)
    ∧ assocGet (_disconnect serverRejectAll cachedService (some cfgExample)).2.clients "s1"
      = some serviceClientExample
    ∧ (_disconnect serverRejectAll cachedService none).1
      = Outcome.err (JsError.str "Invalid config object") :=
  ⟨rfl, rfl, rfl⟩

/-! ### C2 -/

/-- A server that accepts any bind whose password is `p` and answers
every search with a single entry carrying the search base. -/
def serverPasswordP : LdapServer :=
  { acceptBind := fun _ pw => pw == "p",
    search := fun _ s _ => SearchResult.events
      [SearchEvent.entry [("dn", s)], SearchEvent.endEvent 0] }

/-- Counterexample to C2 as stated: with the caller-supplied password
`""`, which the server rejects, `authenticate` nevertheless succeeds —
the falsy password is replaced by `config.searchUserPassword` in
`_connect`, so the dedicated bind does not use the caller-supplied
password and no `AuthenticationError` is produced. -/
theorem authenticate_empty_password_counterexample :
    serverPasswordP.acceptBind "uid=alice,dc=school" "" = false
    ∧ (authenticate serverPasswordP emptyService ⟨some cfgExample⟩
        "uid=alice,dc=school" "").1
      = Outcome.ok [("dn", "uid=alice,dc=school")] :=
  ⟨rfl, rfl⟩

theorem connect_explicit_credentials (server : LdapServer) (c : LdapConfig)
    (username password : String) (hu : username ≠ "") (hp : password ≠ "") :
    _connect server (some c) (some username) (some password)
      = connectExecutor server (some c) username password := by
  rw [_connect, jsTruthyStr_of_ne username hu, jsTruthyStr_of_ne password hp]
  simp

/-- C2 amended: for every config with a URL and nonempty caller-supplied
username and password, `authenticate` establishes a dedicated bind with
exactly those credentials, bypassing the connection cache (the service
state is untouched when the bind fails, and the subsequent search starts
from the unchanged state); it rejects with the `AuthenticationError`
value when the server rejects that bind, performs a self-lookup search
with scope `sub`, the bound username as search base and no attribute
filter otherwise, resolving with the first matching entry and rejecting
with the `NotFoundError` value when the search returns zero entries.
Empty-string credentials are instead replaced by the derived
service-account defaults. -/
theorem authenticate_spec (server : LdapServer) (S : LdapService) (c : LdapConfig)
    (username password : String) (hu : username ≠ "") (hp : password ≠ "")
    (hurl : jsTruthyStr c.url = true) :
    (server.acceptBind username password = false →
      authenticate server S ⟨some c⟩ username password
        = (Outcome.err (JsError.notAuthenticated "Wrong credentials"), S))
    ∧ (server.acceptBind username password = true →
      authenticate server S ⟨some c⟩ username password
        = searchObject server S (some c) username selfLookupOptions)
    ∧ (∀ (e : DirectoryEntry) (es : List DirectoryEntry) (S' : LdapService),
      server.acceptBind username password = true →
      searchCollection server S (some c) username selfLookupOptions
        = (Outcome.ok (e :: es), S') →
      authenticate server S ⟨some c⟩ username password = (Outcome.ok e, S'))
    ∧ (∀ S' : LdapService,
      server.acceptBind username password = true →
      searchCollection server S (some c) username selfLookupOptions
        = (Outcome.ok [], S') →
      authenticate server S ⟨some c⟩ username password
        = (Outcome.err (JsError.str "Object not found"), S')) := by
  have hconn := connect_explicit_credentials server c username password hu hp
  have hmain : server.acceptBind username password = true →
      authenticate server S ⟨some c⟩ username password
        = searchObject server S (some c) username selfLookupOptions := by
    intro hacc
    simp only [authenticate, hconn, connectExecutor, hurl, if_true, hacc]
  refine ⟨?_, hmain, ?_, ?_⟩
  · intro hrej
    simp [authenticate, hconn, connectExecutor, hurl, hrej]
  · intro e es S' hacc hsc
    rw [hmain hacc, searchObject, hsc]
  · intro S' hacc hsc
    rw [hmain hacc, searchObject, hsc]

/-- Witness for the amended C2: a valid nonempty username/password pair
authenticates and returns the single matching entry, caching the
service-account handle during the search step. -/
theorem authenticate_spec_witness :
    authenticate serverPasswordP emptyService ⟨some cfgExample⟩ "uid=alice,dc=school" "p"
      = (Outcome.ok [("dn", "uid=alice,dc=school")], cachedService) := by
  exact (authenticate_spec serverPasswordP emptyService cfgExample "uid=alice,dc=school"
    "p" (by decide) (by decide) (by rfl)).2.2.1 [("dn", "uid=alice,dc=school")] []
    cachedService (by rfl) (by rfl)

/-! ### C8 -/

/-- The cache invariant: the clients registry holds at most one handle
per configuration identifier — its keys are pairwise distinct. -/
def distinctKeys (S : LdapService) : Prop := (S.clients.map Prod.fst).Nodup

theorem distinctKeys_addClient (S : LdapService) (c : LdapConfig) (cl : LDAPClient)
    (h : distinctKeys S) : distinctKeys (_addClient S c cl) :=
  keys_assocSet S.clients (jsKey c._id) cl h

theorem distinctKeys_getClient (server : LdapServer) (S : LdapService)
    (config : Option LdapConfig) (h : distinctKeys S) :
    distinctKeys (_getClient server S config).2 := by
  rcases config with _ | c
  · exact h
  · simp only [_getClient]
    rcases hga : assocGet S.clients (jsKey c._id) with _ | ⟨bu, bp, conn⟩
    · rcases hc : _connect server (some c) none none with cl | e | e | _
      · exact distinctKeys_addClient S c cl h
      all_goals exact h
    · cases conn
      · rcases hc : _connect server (some c) none none with cl | e | e | _
        · exact distinctKeys_addClient S c cl h
        all_goals exact h
      · exact h

theorem state_searchCollection (server : LdapServer) (S : LdapService)
    (config : Option LdapConfig) (s : String) (opts : SearchOptions) :
    (searchCollection server S config s opts).2 = (_getClient server S config).2 := by
  rcases h : _getClient server S config with ⟨o, S'⟩
  rw [searchCollection, h]
  cases o <;> rfl

theorem state_searchObject (server : LdapServer) (S : LdapService)
    (config : Option LdapConfig) (s : String) (opts : SearchOptions) :
    (searchObject server S config s opts).2 = (searchCollection server S config s opts).2 := by
  rcases h : searchCollection server S config s opts with ⟨o, S'⟩
  rw [searchObject, h]
  rcases o with objs | e | e | _
  · cases objs <;> rfl
  all_goals rfl

theorem distinctKeys_authenticate (server : LdapServer) (S : LdapService)
    (sys : LoginSystem) (u p : String) (h : distinctKeys S) :
    distinctKeys (authenticate server S sys u p).2 := by
  simp only [authenticate]
  rcases hc : _connect server sys.ldapConfig (some u) (some p) with cl | e | e | _
  · show distinctKeys (searchObject server S sys.ldapConfig u selfLookupOptions).2
    rw [state_searchObject, state_searchCollection]
    exact distinctKeys_getClient server S sys.ldapConfig h
  all_goals exact h

theorem distinctKeys_disconnect (server : LdapServer) (S : LdapService)
    (config : Option LdapConfig) (h : distinctKeys S) :
    distinctKeys (_disconnect server S config).2 := by
  rcases config with _ | c
  · exact h
  · have hg := distinctKeys_getClient server S (some c) h
    rcases hge : _getClient server S (some c) with ⟨o, S'⟩
    rw [hge] at hg
    rw [_disconnect, hge]
    exact hg

/-- C8: every operation of the service preserves the invariant that the
registry holds at most one cached handle per configuration identifier,
and caching a new handle for an identifier replaces any previous one. -/
theorem cache_at_most_one_handle (server : LdapServer) (S : LdapService)
    (h : distinctKeys S) :
    (∀ (c : LdapConfig) (cl : LDAPClient),
      distinctKeys (_addClient S c cl)
      ∧ assocGet (_addClient S c cl).clients (jsKey c._id) = some cl)
    ∧ (∀ config : Option LdapConfig, distinctKeys (_getClient server S config).2)
    ∧ (∀ (config : Option LdapConfig) (s : String) (opts : SearchOptions),
      distinctKeys (searchCollection server S config s opts).2)
    ∧ (∀ (config : Option LdapConfig) (s : String) (opts : SearchOptions),
      distinctKeys (searchObject server S config s opts).2)
    ∧ (∀ (sys : LoginSystem) (u p : String),
      distinctKeys (authenticate server S sys u p).2)
    ∧ (∀ config : Option LdapConfig, distinctKeys (_disconnect server S config).2) := by
  refine ⟨fun c cl => ⟨distinctKeys_addClient S c cl h,
    assocGet_assocSet_self S.clients (jsKey c._id) cl⟩,
    fun config => distinctKeys_getClient server S config h, ?_, ?_,
    fun sys u p => distinctKeys_authenticate server S sys u p h,
    fun config => distinctKeys_disconnect server S config h⟩
  · intro config s opts
    rw [state_searchCollection]
    exact distinctKeys_getClient server S config h
  · intro config s opts
    rw [state_searchObject, state_searchCollection]
    exact distinctKeys_getClient server S config h

/-- Witness for C8: on a registry holding one handle, re-caching under
the same identifier keeps a single handle and replaces the stored value,
and a full `authenticate` pass preserves the invariant. -/
theorem cache_at_most_one_handle_witness :
    distinctKeys (_addClient cachedService cfgExample serviceClientExample)
    ∧ assocGet (_addClient cachedService cfgExample serviceClientExample).clients "s1"
      = some serviceClientExample
    ∧ distinctKeys (authenticate serverPasswordP cachedService ⟨some cfgExample⟩
        "uid=alice,dc=school" "p").2 := by
  have h := cache_at_most_one_handle serverPasswordP cachedService
    (show distinctKeys cachedService from List.nodup_singleton "s1")
  exact ⟨(h.1 cfgExample serviceClientExample).1, (h.1 cfgExample serviceClientExample).2,
    h.2.2.2.2.1 ⟨some cfgExample⟩ "uid=alice,dc=school" "p"⟩

/-! ### C10 -/

/-- C10: the self-lookup search step of `authenticate` obtains its
connection through the shared cache, not through the dedicated bind made
with the caller credentials: with no cached handle, the search step
performs the service-account bind, the search runs on the
service-account client (the result depends on `server.search` only at
that client), and a service-account handle — bound with the derived
default credentials, not the caller ones — is left cached under the
config identifier. -/
theorem authenticate_search_via_cache (server : LdapServer) (S : LdapService)
    (c : LdapConfig) (username password : String)
    (hu : username ≠ "") (hp : password ≠ "") (hurl : jsTruthyStr c.url = true)
    (hnone : assocGet S.clients (jsKey c._id) = none)
    (haccU : server.acceptBind username password = true)
    (haccS : server.acceptBind ("uid=" ++ c.searchUser ++ ",cn=users," ++ c.rootPath)
      c.searchUserPassword = true) :
    authenticate server S ⟨some c⟩ username password
      = (match searchPromise (server.search
            ⟨"uid=" ++ c.searchUser ++ ",cn=users," ++ c.rootPath,
             c.searchUserPassword, true⟩ username selfLookupOptions) with
         | Outcome.ok (e :: _) => Outcome.ok e
         | Outcome.ok [] => Outcome.err (JsError.str "Object not found")
         | Outcome.err e => Outcome.err e
         | Outcome.thrown e => Outcome.thrown e
         | Outcome.pending => Outcome.pending,
         _addClient S c ⟨"uid=" ++ c.searchUser ++ ",cn=users," ++ c.rootPath,
           c.searchUserPassword, true⟩)
    ∧ assocGet (authenticate server S ⟨some c⟩ username password).2.clients
        (jsKey c._id)
      = some ⟨"uid=" ++ c.searchUser ++ ",cn=users," ++ c.rootPath,
          c.searchUserPassword, true⟩ := by
  have hnc : hasConnected S (jsKey c._id) = false := by
    rw [hasConnected, hnone]
  have hmain : authenticate server S ⟨some c⟩ username password
      = searchObject server S (some c) username selfLookupOptions := by
    simp only [authenticate, connect_explicit_credentials server c username password hu hp,
      connectExecutor, hurl, if_true, haccU]
  have hsc : searchCollection server S (some c) username selfLookupOptions
      = (searchPromise (server.search
          ⟨"uid=" ++ c.searchUser ++ ",cn=users," ++ c.rootPath,
           c.searchUserPassword, true⟩ username selfLookupOptions),
         _addClient S c ⟨"uid=" ++ c.searchUser ++ ",cn=users," ++ c.rootPath,
           c.searchUserPassword, true⟩) := by
    rw [searchCollection, getClient_establishes_default server S c hurl hnc haccS]
  have h1 : authenticate server S ⟨some c⟩ username password
      = (match searchPromise (server.search
            ⟨"uid=" ++ c.searchUser ++ ",cn=users," ++ c.rootPath,
             c.searchUserPassword, true⟩ username selfLookupOptions) with
         | Outcome.ok (e :: _) => Outcome.ok e
         | Outcome.ok [] => Outcome.err (JsError.str "Object not found")
         | Outcome.err e => Outcome.err e
         | Outcome.thrown e => Outcome.thrown e
         | Outcome.pending => Outcome.pending,
         _addClient S c ⟨"uid=" ++ c.searchUser ++ ",cn=users," ++ c.rootPath,
           c.searchUserPassword, true⟩) := by
    rw [hmain, searchObject, hsc]
    rcases searchPromise (server.search
        ⟨"uid=" ++ c.searchUser ++ ",cn=users," ++ c.rootPath,
         c.searchUserPassword, true⟩ username selfLookupOptions) with objs | e | e | _
    · cases objs <;> rfl
    all_goals rfl
  refine ⟨h1, ?_⟩
  rw [h1]
  exact assocGet_assocSet_self S.clients (jsKey c._id) _

/-- Witness for C10: after a successful `authenticate` against an empty
registry, the handle cached under the config identifier is the
service-account handle, not one bound with the caller credentials. -/
theorem authenticate_search_via_cache_witness :
    assocGet (authenticate serverPasswordP emptyService ⟨some cfgExample⟩
      "uid=alice,dc=school" "p").2.clients "s1" = some serviceClientExample := by
  exact (authenticate_search_via_cache serverPasswordP emptyService cfgExample
    "uid=alice,dc=school" "p" (by decide) (by decide) rfl rfl rfl rfl).2

end LdapSpec
